import Mathlib

/-!
Verification of the LGScroll virtual-scroll engine
(src/static/js/lg-scrollbar.js), a shallow embedding in Lean 4.

Numbers are modelled by ℚ (exact arithmetic over the finite doubles the
engine manipulates); DOM handles and style writes are dropped or recorded
as plain state fields.  Each definition mirrors one function of the source
file, keeping its name and its argument order.
-/

namespace LGScroll

/-- Source clamp(v, a, b) = Math.max(a, Math.min(b, v)).  Note the argument
order: the value comes FIRST, then the two bounds. -/
def clamp (v a b : ℚ) : ℚ := max a (min b v)

/-- JS Math.round on finite inputs: round half toward +infinity,
Math.round(x) = floor(x + 1/2). -/
def jsRound (q : ℚ) : ℤ := ⌊q + 1/2⌋

/-- Mutable per-instance state of the engine (the numeric and boolean
fields of the class; DOM element handles are not part of the model). -/
structure State where
  viewportH : ℚ
  contentH : ℚ
  maxScroll : ℚ
  trackH : ℚ
  thumbH : ℚ
  scrollY : ℚ
  targetY : ℚ
  minThumb : ℚ
  wheelStep : ℚ
  easing : ℚ
  prefersReducedMotion : Bool
  dragging : Bool
  dragStartY : ℚ
  dragStartScroll : ℚ
  barHidden : Bool
deriving DecidableEq

/-- Constructor-initialised state with the default options
(minThumb 32, wheelStep 60, easing 0.18), before the initial measure(). -/
def initState : State :=
  { viewportH := 0, contentH := 0, maxScroll := 0, trackH := 0, thumbH := 0
    scrollY := 0, targetY := 0, minThumb := 32, wheelStep := 60
    easing := 18/100, prefersReducedMotion := false, dragging := false
    dragStartY := 0, dragStartScroll := 0, barHidden := false }

/-- applyScrollImmediate(next): scrollY = clamp(next, 0, maxScroll); the
content translate and updateThumb() are pure style writes. -/
def applyScrollImmediate (next : ℚ) (s : State) : State :=
  { s with scrollY := clamp next 0 s.maxScroll }

/-- setTarget(y, immediate): targetY = clamp(y, 0, maxScroll); if immediate
or prefers-reduced-motion, apply at once (and stop the rAF loop), else mark
activity and start the rAF loop (activity/raf bookkeeping is modelled
separately for the auto-hide claims). -/
def setTarget (y : ℚ) (immediate : Bool) (s : State) : State :=
  let s1 := { s with targetY := clamp y 0 s.maxScroll }
  if immediate || s1.prefersReducedMotion then applyScrollImmediate s1.targetY s1
  else s1

/-- measure(): reads viewportH, contentH, trackH (passed here as the
measured inputs), recomputes maxScroll = max(0, contentH - viewportH),
thumbH = clamp(minThumb, round(trackH * viewportH / max(1, contentH)), trackH)
(the call site passes minThumb in the VALUE slot of clamp), toggles the
hidden class at maxScroll <= 1, then re-clamps via setTarget(targetY, true). -/
def measure (viewportH contentH trackH : ℚ) (s : State) : State :=
  let maxScroll := max 0 (contentH - viewportH)
  let ratio := viewportH / max 1 contentH
  let s1 := { s with viewportH := viewportH, contentH := contentH
                     maxScroll := maxScroll, trackH := trackH
                     thumbH := clamp s.minThumb ((jsRound (trackH * ratio) : ℤ) : ℚ) trackH
                     barHidden := decide (maxScroll ≤ 1) }
  setTarget s1.targetY true s1

/-- One animation frame: diff = targetY - scrollY; if |diff| < 0.5 snap to
the target (and stop), else advance by diff * easing. -/
def animate (s : State) : State :=
  let diff := s.targetY - s.scrollY
  if |diff| < 1/2 then applyScrollImmediate s.targetY s
  else applyScrollImmediate (s.scrollY + diff * s.easing) s

/-- Public scrollTo(y) = setTarget(y). -/
def scrollTo (y : ℚ) (s : State) : State := setTarget y false s

/-- Public scrollToEnd() = measure() then setTarget(maxScroll, prefersReducedMotion). -/
def scrollToEnd (viewportH contentH trackH : ℚ) (s : State) : State :=
  let s1 := measure viewportH contentH trackH s
  setTarget s1.maxScroll s1.prefersReducedMotion s1

/-- Public forceMeasure() = measure(). -/
def forceMeasure (viewportH contentH trackH : ℚ) (s : State) : State :=
  measure viewportH contentH trackH s

/-- handleWheel(e): ignores when maxScroll <= 0, else step = base *
clamp(|deltaY|/100, 1, 3) with base tripled under Ctrl, added with the sign
of deltaY to the target. -/
def handleWheel (deltaY : ℚ) (ctrlKey : Bool) (s : State) : State :=
  if s.maxScroll ≤ 0 then s
  else
    let base := if ctrlKey then s.wheelStep * 3 else s.wheelStep
    let step := base * max 1 (min 3 (|deltaY| / 100))
    setTarget (s.targetY + (if 0 < deltaY then step else -step)) false s

/-- Keys the keydown handler reacts to. -/
inductive Key where
  | arrowDown | arrowUp | pageDown | pageUp | home | endKey | other
deriving DecidableEq

/-- handleKeyDown(e): the hover/open/focused-input guards are collapsed into
the applicable flag; each handled key funnels into setTarget. -/
def handleKeyDown (applicable : Bool) (k : Key) (s : State) : State :=
  if !applicable then s
  else
    match k with
    | .arrowDown => setTarget (s.targetY + s.wheelStep) false s
    | .arrowUp => setTarget (s.targetY - s.wheelStep) false s
    | .pageDown => setTarget (s.targetY + s.viewportH * (9/10)) false s
    | .pageUp => setTarget (s.targetY - s.viewportH * (9/10)) false s
    | .home => setTarget 0 false s
    | .endKey => setTarget s.maxScroll false s
    | .other => s

/-- handleThumbMousedown(e): records the drag anchors and sets dragging. -/
def handleThumbMousedown (clientY : ℚ) (s : State) : State :=
  if s.maxScroll ≤ 0 then s
  else { s with dragging := true, dragStartY := clientY, dragStartScroll := s.scrollY }

/-- handleWindowMousemove(e): while dragging, scrollDelta =
dy / max(1, trackH - thumbH) * maxScroll, applied immediately. -/
def handleWindowMousemove (clientY : ℚ) (s : State) : State :=
  if !s.dragging then s
  else
    let dy := clientY - s.dragStartY
    let range := max 1 (s.trackH - s.thumbH)
    setTarget (s.dragStartScroll + dy / range * s.maxScroll) true s

/-- handleWindowMouseup(): clears dragging (auto-hide scheduling is modelled
separately). -/
def handleWindowMouseup (s : State) : State :=
  if !s.dragging then s else { s with dragging := false }

/-- handleTrackMousedown(e): for a click not on the thumb with maxScroll > 0,
targetThumbY = clickY - thumbH/2, scrollRatio = targetThumbY / (trackH - thumbH)
(NO guard on the divisor in the source), setTarget(maxScroll * scrollRatio).
Over ℚ this definition is faithful only when trackH is not thumbH; the
divisor-zero behaviour is modelled separately with JS value semantics. -/
def handleTrackMousedown (clickY : ℚ) (onThumb : Bool) (s : State) : State :=
  if s.maxScroll ≤ 0 || onThumb then s
  else
    let thumbHalf := s.thumbH / 2
    let targetThumbY := clickY - thumbHalf
    let scrollRatio := targetThumbY / (s.trackH - s.thumbH)
    setTarget (s.maxScroll * scrollRatio) false s

/-- The spec invariant on the scroll offsets: both the current and the
target offset stay within [0, maxScroll] (with maxScroll nonnegative). -/
def Inv (s : State) : Prop :=
  0 ≤ s.maxScroll ∧ 0 ≤ s.scrollY ∧ s.scrollY ≤ s.maxScroll ∧
    0 ≤ s.targetY ∧ s.targetY ≤ s.maxScroll

lemma clamp_nonneg (v M : ℚ) : 0 ≤ clamp v 0 M := le_max_left 0 _

lemma clamp_le (v M : ℚ) (hM : 0 ≤ M) : clamp v 0 M ≤ M :=
  max_le hM (min_le_left _ _)

lemma clamp_eq_self (v M : ℚ) (h0 : 0 ≤ v) (hM : v ≤ M) : clamp v 0 M = v := by
  unfold clamp
  rw [min_eq_right hM, max_eq_right h0]

lemma inv_applyScrollImmediate (y : ℚ) {s : State} (h : Inv s) :
    Inv (applyScrollImmediate y s) :=
  ⟨h.1, clamp_nonneg y s.maxScroll, clamp_le y s.maxScroll h.1, h.2.2.2.1, h.2.2.2.2⟩

lemma inv_setTarget (y : ℚ) (immediate : Bool) {s : State} (h : Inv s) :
    Inv (setTarget y immediate s) := by
  unfold setTarget
  have h1 : Inv { s with targetY := clamp y 0 s.maxScroll } :=
    ⟨h.1, h.2.1, h.2.2.1, clamp_nonneg y s.maxScroll, clamp_le y s.maxScroll h.1⟩
  dsimp only
  split
  · exact inv_applyScrollImmediate _ h1
  · exact h1

lemma inv_setTarget_immediate (y : ℚ) {s : State} (hM : 0 ≤ s.maxScroll) :
    Inv (setTarget y true s) := by
  show Inv (applyScrollImmediate _ _)
  exact ⟨hM, clamp_nonneg _ _, clamp_le _ _ hM, clamp_nonneg _ _, clamp_le _ _ hM⟩

lemma inv_measure (viewportH contentH trackH : ℚ) (s : State) :
    Inv (measure viewportH contentH trackH s) := by
  unfold measure
  exact inv_setTarget_immediate _ (le_max_left 0 _)

lemma inv_animate {s : State} (h : Inv s) : Inv (animate s) := by
  unfold animate
  dsimp only
  split
  · exact inv_applyScrollImmediate _ h
  · exact inv_applyScrollImmediate _ h

lemma inv_scrollTo (y : ℚ) {s : State} (h : Inv s) : Inv (scrollTo y s) :=
  inv_setTarget y false h

lemma inv_scrollToEnd (viewportH contentH trackH : ℚ) (s : State) :
    Inv (scrollToEnd viewportH contentH trackH s) :=
  inv_setTarget _ _ (inv_measure viewportH contentH trackH s)

lemma inv_handleWheel (deltaY : ℚ) (ctrlKey : Bool) {s : State} (h : Inv s) :
    Inv (handleWheel deltaY ctrlKey s) := by
  unfold handleWheel
  dsimp only
  split
  · exact h
  · exact inv_setTarget _ _ h

lemma inv_handleKeyDown (applicable : Bool) (k : Key) {s : State} (h : Inv s) :
    Inv (handleKeyDown applicable k s) := by
  unfold handleKeyDown
  split
  · exact h
  · cases k <;> first | exact inv_setTarget _ _ h | exact h

lemma inv_handleThumbMousedown (clientY : ℚ) {s : State} (h : Inv s) :
    Inv (handleThumbMousedown clientY s) := by
  unfold handleThumbMousedown
  split
  · exact h
  · exact h

lemma inv_handleWindowMousemove (clientY : ℚ) {s : State} (h : Inv s) :
    Inv (handleWindowMousemove clientY s) := by
  unfold handleWindowMousemove
  dsimp only
  split
  · exact h
  · exact inv_setTarget _ _ h

lemma inv_handleWindowMouseup {s : State} (h : Inv s) :
    Inv (handleWindowMouseup s) := by
  unfold handleWindowMouseup
  split
  · exact h
  · exact h

lemma inv_handleTrackMousedown (clickY : ℚ) (onThumb : Bool) {s : State} (h : Inv s) :
    Inv (handleTrackMousedown clickY onThumb s) := by
  unfold handleTrackMousedown
  dsimp only
  split
  · exact h
  · exact inv_setTarget _ _ h

lemma setTarget_targetY (y : ℚ) (immediate : Bool) (s : State) :
    (setTarget y immediate s).targetY = clamp y 0 s.maxScroll := by
  unfold setTarget applyScrollImmediate
  dsimp only
  split <;> rfl

lemma setTarget_maxScroll (y : ℚ) (immediate : Bool) (s : State) :
    (setTarget y immediate s).maxScroll = s.maxScroll := by
  unfold setTarget applyScrollImmediate
  dsimp only
  split <;> rfl

lemma setTarget_easing (y : ℚ) (immediate : Bool) (s : State) :
    (setTarget y immediate s).easing = s.easing := by
  unfold setTarget applyScrollImmediate
  dsimp only
  split <;> rfl

lemma setTarget_reduced (y : ℚ) (immediate : Bool) (s : State) :
    (setTarget y immediate s).prefersReducedMotion = s.prefersReducedMotion := by
  unfold setTarget applyScrollImmediate
  dsimp only
  split <;> rfl

lemma scrollTo_targetY (y : ℚ) (s : State) :
    (scrollTo y s).targetY = clamp y 0 s.maxScroll := setTarget_targetY y false s

lemma scrollTo_maxScroll (y : ℚ) (s : State) :
    (scrollTo y s).maxScroll = s.maxScroll := setTarget_maxScroll y false s

lemma scrollTo_easing (y : ℚ) (s : State) :
    (scrollTo y s).easing = s.easing := setTarget_easing y false s

lemma scrollTo_reduced (y : ℚ) (s : State) :
    (scrollTo y s).prefersReducedMotion = s.prefersReducedMotion :=
  setTarget_reduced y false s

lemma scrollTo_scrollY_reduced (y : ℚ) {s : State}
    (hr : s.prefersReducedMotion = true) (hM : 0 ≤ s.maxScroll) :
    (scrollTo y s).scrollY = clamp y 0 s.maxScroll := by
  unfold scrollTo setTarget applyScrollImmediate
  simp only [hr, Bool.or_true, if_true]
  exact clamp_eq_self _ _ (clamp_nonneg _ _) (clamp_le _ _ hM)

lemma animate_targetY (s : State) : (animate s).targetY = s.targetY := by
  unfold animate applyScrollImmediate
  dsimp only
  split <;> rfl

lemma animate_maxScroll (s : State) : (animate s).maxScroll = s.maxScroll := by
  unfold animate applyScrollImmediate
  dsimp only
  split <;> rfl

lemma animate_easing (s : State) : (animate s).easing = s.easing := by
  unfold animate applyScrollImmediate
  dsimp only
  split <;> rfl

lemma animate_snap {s : State} (h : Inv s)
    (hd : |s.targetY - s.scrollY| < 1/2) : (animate s).scrollY = s.targetY := by
  unfold animate applyScrollImmediate
  dsimp only
  rw [if_pos hd]
  exact clamp_eq_self _ _ h.2.2.2.1 h.2.2.2.2

lemma animate_go {s : State} (h : Inv s) (he0 : 0 ≤ s.easing) (he1 : s.easing ≤ 1)
    (hd : ¬ |s.targetY - s.scrollY| < 1/2) :
    (animate s).scrollY = s.scrollY + (s.targetY - s.scrollY) * s.easing := by
  obtain ⟨hM, h1, h2, h3, h4⟩ := h
  unfold animate applyScrollImmediate
  dsimp only
  rw [if_neg hd]
  apply clamp_eq_self
  · nlinarith [mul_nonneg h3 he0, mul_nonneg h1 (sub_nonneg.2 he1)]
  · nlinarith [mul_nonneg (sub_nonneg.2 h2) (sub_nonneg.2 he1),
      mul_nonneg (sub_nonneg.2 h4) he0]

lemma foldl_scrollTo_maxScroll (xs : List ℚ) (s : State) :
    (xs.foldl (fun t y => scrollTo y t) s).maxScroll = s.maxScroll := by
  induction xs generalizing s with
  | nil => rfl
  | cons a l ih =>
      rw [List.foldl_cons, ih (scrollTo a s), scrollTo_maxScroll]

lemma foldl_scrollTo_easing (xs : List ℚ) (s : State) :
    (xs.foldl (fun t y => scrollTo y t) s).easing = s.easing := by
  induction xs generalizing s with
  | nil => rfl
  | cons a l ih =>
      rw [List.foldl_cons, ih (scrollTo a s), scrollTo_easing]

lemma foldl_scrollTo_reduced (xs : List ℚ) (s : State) :
    (xs.foldl (fun t y => scrollTo y t) s).prefersReducedMotion =
      s.prefersReducedMotion := by
  induction xs generalizing s with
  | nil => rfl
  | cons a l ih =>
      rw [List.foldl_cons, ih (scrollTo a s), scrollTo_reduced]

lemma foldl_scrollTo_inv (xs : List ℚ) {s : State} (h : Inv s) :
    Inv (xs.foldl (fun t y => scrollTo y t) s) := by
  induction xs generalizing s with
  | nil => exact h
  | cons a l ih =>
      rw [List.foldl_cons]
      exact ih (inv_scrollTo a h)

lemma animate_iter (s : State) (h : Inv s) (he0 : 0 ≤ s.easing) (he1 : s.easing ≤ 1)
    (k : ℕ) :
    Inv (animate^[k] s) ∧ (animate^[k] s).easing = s.easing ∧
      (animate^[k] s).targetY = s.targetY ∧
      (animate^[k] s).maxScroll = s.maxScroll ∧
      |(animate^[k] s).targetY - (animate^[k] s).scrollY| ≤
        |s.targetY - s.scrollY| * (1 - s.easing) ^ k := by
  induction k with
  | zero => exact ⟨h, rfl, rfl, rfl, by rw [pow_zero, mul_one]; exact le_rfl⟩
  | succ k ih =>
      obtain ⟨hInv, hE, hT, hM, hD⟩ := ih
      have hr0 : (0:ℚ) ≤ 1 - s.easing := by linarith
      rw [Function.iterate_succ_apply']
      refine ⟨inv_animate hInv, by rw [animate_easing, hE],
        by rw [animate_targetY, hT], by rw [animate_maxScroll, hM], ?_⟩
      by_cases hsnap : |(animate^[k] s).targetY - (animate^[k] s).scrollY| < 1/2
      · rw [animate_targetY, animate_snap hInv hsnap, hT, sub_self, abs_zero]
        positivity
      · rw [animate_targetY,
          animate_go hInv (by rw [hE]; exact he0) (by rw [hE]; exact he1) hsnap, hE]
        have : (animate^[k] s).targetY -
            ((animate^[k] s).scrollY +
              ((animate^[k] s).targetY - (animate^[k] s).scrollY) * s.easing) =
            ((animate^[k] s).targetY - (animate^[k] s).scrollY) * (1 - s.easing) := by
          ring
        rw [this, abs_mul, abs_of_nonneg hr0, pow_succ, ← mul_assoc]
        exact mul_le_mul_of_nonneg_right hD hr0

lemma animate_converges (s : State) (h : Inv s) (he0 : 0 < s.easing)
    (he1 : s.easing < 1) :
    ∃ n, (animate^[n] s).scrollY = (animate^[n] s).targetY ∧
      (animate^[n] s).targetY = s.targetY := by
  obtain ⟨n, hn⟩ : ∃ n, |s.targetY - s.scrollY| * (1 - s.easing) ^ n < 1/2 := by
    rcases eq_or_lt_of_le (abs_nonneg (s.targetY - s.scrollY)) with h0 | h0
    · exact ⟨0, by rw [pow_zero, mul_one, ← h0]; norm_num⟩
    · obtain ⟨n, hn⟩ := exists_pow_lt_of_lt_one
        (x := (1/2) / |s.targetY - s.scrollY|) (y := 1 - s.easing)
        (by positivity) (by linarith)
      refine ⟨n, ?_⟩
      rw [lt_div_iff₀ h0] at hn
      linarith [hn, mul_comm ((1 - s.easing) ^ n) |s.targetY - s.scrollY|]
  obtain ⟨hInv, hE, hT, hM, hD⟩ := animate_iter s h (le_of_lt he0) (le_of_lt he1) n
  have hsmall : |(animate^[n] s).targetY - (animate^[n] s).scrollY| < 1/2 :=
    lt_of_le_of_lt hD hn
  refine ⟨n + 1, ?_, ?_⟩
  · rw [Function.iterate_succ_apply', animate_snap hInv hsmall, animate_targetY]
  · rw [Function.iterate_succ_apply', animate_targetY, hT]

/-- The state after an arbitrary sequence of scrollTo calls followed by a
final scrollTo(x). -/
def runScrollSeq (s : State) (xs : List ℚ) (x : ℚ) : State :=
  scrollTo x (xs.foldl (fun t y => scrollTo y t) s)

/-- A sample measured state: viewport 300, content 1200, track 300, default
options, mid-animation toward offset 600. -/
def demoState : State :=
  { viewportH := 300, contentH := 1200, maxScroll := 900, trackH := 300
    thumbH := 75, scrollY := 0, targetY := 600, minThumb := 32, wheelStep := 60
    easing := 18/100, prefersReducedMotion := false, dragging := false
    dragStartY := 0, dragStartScroll := 0, barHidden := false }

lemma inv_demoState : Inv demoState := by
  unfold Inv demoState
  norm_num

/-- C1: after any sequence of scrollTo calls ending in scrollTo(x), the
target offset equals clamp(x, 0, maxScroll); in reduced-motion mode the
current offset equals it immediately, and otherwise the animation loop
reaches, in finitely many frames, a settled state whose current offset
equals clamp(x, 0, maxScroll). -/
theorem scrollTo_sequence_settles (s : State) (x : ℚ) (xs : List ℚ)
    (hInv : Inv s) (he0 : 0 < s.easing) (he1 : s.easing < 1) :
    (runScrollSeq s xs x).targetY = clamp x 0 s.maxScroll ∧
    (s.prefersReducedMotion = true →
      (runScrollSeq s xs x).scrollY = clamp x 0 s.maxScroll) ∧
    ∃ n, (animate^[n] (runScrollSeq s xs x)).scrollY = clamp x 0 s.maxScroll ∧
      (animate^[n] (runScrollSeq s xs x)).scrollY =
        (animate^[n] (runScrollSeq s xs x)).targetY := by
  have hMt : (xs.foldl (fun t y => scrollTo y t) s).maxScroll = s.maxScroll :=
    foldl_scrollTo_maxScroll xs s
  have hIt : Inv (xs.foldl (fun t y => scrollTo y t) s) := foldl_scrollTo_inv xs hInv
  have hEt : (xs.foldl (fun t y => scrollTo y t) s).easing = s.easing :=
    foldl_scrollTo_easing xs s
  have hRt : (xs.foldl (fun t y => scrollTo y t) s).prefersReducedMotion =
      s.prefersReducedMotion := foldl_scrollTo_reduced xs s
  have htar : (runScrollSeq s xs x).targetY = clamp x 0 s.maxScroll := by
    unfold runScrollSeq
    rw [scrollTo_targetY, hMt]
  refine ⟨htar, ?_, ?_⟩
  · intro hr
    unfold runScrollSeq
    rw [scrollTo_scrollY_reduced x (hRt.trans hr) (by rw [hMt]; exact hInv.1), hMt]
  · have hI' : Inv (runScrollSeq s xs x) := inv_scrollTo x hIt
    have hE' : (runScrollSeq s xs x).easing = s.easing := by
      unfold runScrollSeq
      rw [scrollTo_easing, hEt]
    obtain ⟨n, h1, h2⟩ := animate_converges _ hI'
      (by rw [hE']; exact he0) (by rw [hE']; exact he1)
    refine ⟨n, ?_, h1⟩
    rw [h1, h2]
    exact htar

/-- C1 witness at a concrete instance. -/
theorem scrollTo_sequence_settles_witness :
    (runScrollSeq demoState [2000, 50] 100).targetY = clamp 100 0 demoState.maxScroll ∧
    (demoState.prefersReducedMotion = true →
      (runScrollSeq demoState [2000, 50] 100).scrollY = clamp 100 0 demoState.maxScroll) ∧
    ∃ n, (animate^[n] (runScrollSeq demoState [2000, 50] 100)).scrollY =
        clamp 100 0 demoState.maxScroll ∧
      (animate^[n] (runScrollSeq demoState [2000, 50] 100)).scrollY =
        (animate^[n] (runScrollSeq demoState [2000, 50] 100)).targetY :=
  scrollTo_sequence_settles demoState 100 [2000, 50] inv_demoState
    (by norm_num [demoState]) (by norm_num [demoState])

/-- C4: for 0 < easing < 1, each frame makes |target - current|
non-increasing (strictly while at least epsilon away), keeps current
between the old current and the target (never overshoots), snaps once the
gap is below the 0.5 epsilon, and the loop settles after finitely many
frames. -/
theorem animate_monotone_convergence (s : State) (hInv : Inv s)
    (he0 : 0 < s.easing) (he1 : s.easing < 1) :
    |(animate s).targetY - (animate s).scrollY| ≤ |s.targetY - s.scrollY| ∧
    (1/2 ≤ |s.targetY - s.scrollY| →
      |(animate s).targetY - (animate s).scrollY| < |s.targetY - s.scrollY|) ∧
    min s.scrollY s.targetY ≤ (animate s).scrollY ∧
    (animate s).scrollY ≤ max s.scrollY s.targetY ∧
    (|s.targetY - s.scrollY| < 1/2 → (animate s).scrollY = (animate s).targetY) ∧
    ∃ n, (animate^[n] s).scrollY = (animate^[n] s).targetY := by
  have he0' := le_of_lt he0
  have he1' := le_of_lt he1
  obtain ⟨n, hn, -⟩ := animate_converges s hInv he0 he1
  have hT := animate_targetY s
  by_cases hd : |s.targetY - s.scrollY| < 1/2
  · have hs := animate_snap hInv hd
    refine ⟨?_, ?_, ?_, ?_, fun _ => by rw [hs, hT], ⟨n, hn⟩⟩
    · rw [hT, hs, sub_self, abs_zero]
      exact abs_nonneg _
    · intro habs
      linarith
    · rw [hs]
      exact min_le_right _ _
    · rw [hs]
      exact le_max_right _ _
  · have hg := animate_go hInv he0' he1' hd
    have hr0 : (0:ℚ) ≤ 1 - s.easing := by linarith
    have habs : |(animate s).targetY - (animate s).scrollY|
        = |s.targetY - s.scrollY| * (1 - s.easing) := by
      have hdiff : (animate s).targetY - (animate s).scrollY
          = (s.targetY - s.scrollY) * (1 - s.easing) := by
        rw [hT, hg]
        ring
      rw [hdiff, abs_mul, abs_of_nonneg hr0]
    refine ⟨?_, ?_, ?_, ?_, fun h => absurd h hd, ⟨n, hn⟩⟩
    · rw [habs]
      exact mul_le_of_le_one_right (abs_nonneg _) (by linarith)
    · intro hge
      rw [habs]
      exact mul_lt_of_lt_one_right (by linarith) (by linarith)
    · rcases le_total s.scrollY s.targetY with hle | hle
      · rw [min_eq_left hle, hg]
        nlinarith [mul_nonneg (sub_nonneg.2 hle) he0']
      · rw [min_eq_right hle, hg]
        nlinarith [mul_nonneg (sub_nonneg.2 hle) hr0]
    · rcases le_total s.scrollY s.targetY with hle | hle
      · rw [max_eq_right hle, hg]
        nlinarith [mul_nonneg (sub_nonneg.2 hle) hr0]
      · rw [max_eq_left hle, hg]
        nlinarith [mul_nonneg (sub_nonneg.2 hle) he0']

/-- C4 witness at a concrete instance. -/
theorem animate_monotone_convergence_witness :
    |(animate demoState).targetY - (animate demoState).scrollY| ≤
      |demoState.targetY - demoState.scrollY| ∧
    ∃ n, (animate^[n] demoState).scrollY = (animate^[n] demoState).targetY :=
  ⟨(animate_monotone_convergence demoState inv_demoState
      (by norm_num [demoState]) (by norm_num [demoState])).1,
   (animate_monotone_convergence demoState inv_demoState
      (by norm_num [demoState]) (by norm_num [demoState])).2.2.2.2.2⟩

/-- Modelled from the spec: thumb size =
clamp(round(trackSize * viewportSize / contentSize), minThumbSize, trackSize),
reading clamp in the usual value-lowerBound-upperBound order. -/
def specThumbSize (viewportH contentH trackH minThumb : ℚ) : ℚ :=
  clamp ((jsRound (trackH * (viewportH / contentH)) : ℤ) : ℚ) minThumb trackH

/-- C2 (evaluation of the code at the failing input): measure() passes
minThumb in the VALUE slot of clamp(v, a, b), so for viewport=600,
content=300, track=100, minThumb=32 the stored thumb size is
max(round(200), min(100, 32)) = 200, which exceeds the track size 100,
while the spec formula yields 100; on the spec's own worked example
(300, 1200, 300, 32) the two coincide at 75, hiding the slip. -/
theorem measure_thumb_code_eval :
    (measure 600 300 100 initState).thumbH = 200 ∧
    (measure 600 300 100 initState).trackH = 100 ∧
    ¬ (measure 600 300 100 initState).thumbH ≤ (measure 600 300 100 initState).trackH ∧
    specThumbSize 600 300 100 32 = 100 ∧
    (measure 300 1200 300 initState).thumbH = 75 ∧
    specThumbSize 300 1200 300 32 = 75 := by
  norm_num [measure, setTarget, applyScrollImmediate, clamp, jsRound,
    specThumbSize, initState]

/-- C10: the implemented track-click policy is the centering variant: a
click not on the thumb, with maxScroll > 0 (and a nondegenerate
trackH - thumbH divisor, where the rational model is faithful to the JS
arithmetic), sets the target to
maxScroll * (clickY - thumbH/2) / (trackH - thumbH), clamped to
[0, maxScroll] by the set-target path. -/
theorem trackClick_centering (s : State) (clickY : ℚ)
    (hM : 0 < s.maxScroll) (hT : s.thumbH ≠ s.trackH) :
    (handleTrackMousedown clickY false s).targetY =
      clamp (s.maxScroll * ((clickY - s.thumbH / 2) / (s.trackH - s.thumbH)))
        0 s.maxScroll := by
  unfold handleTrackMousedown
  split
  · next hcond =>
      exfalso
      simp only [Bool.or_false, decide_eq_true_eq] at hcond
      exact absurd hcond (not_le.2 hM)
  · exact setTarget_targetY _ _ _

/-- C10 witness at a concrete instance: a click at 200px on the demo
geometry centers the thumb there, giving target 650. -/
theorem trackClick_centering_witness :
    (handleTrackMousedown 200 false demoState).targetY =
      clamp (demoState.maxScroll * ((200 - demoState.thumbH / 2) /
        (demoState.trackH - demoState.thumbH))) 0 demoState.maxScroll ∧
    (handleTrackMousedown 200 false demoState).targetY = 650 :=
  ⟨trackClick_centering demoState 200 (by norm_num [demoState])
      (by norm_num [demoState]),
   by norm_num [handleTrackMousedown, setTarget, applyScrollImmediate, clamp,
     demoState]⟩

/-- IEEE-style value classes the engine can produce: a finite number, NaN,
or a signed infinity (floats idealised to ℚ in the finite case). -/
inductive JSVal where
  | num (q : ℚ)
  | nan
  | inf
  | ninf
deriving DecidableEq

/-- JS division on the value classes reached by the engine: a finite
numerator over zero gives NaN (0/0) or a signed infinity. -/
def jsDiv : JSVal → JSVal → JSVal
  | .num a, .num b =>
      if b = 0 then (if a = 0 then .nan else if 0 < a then .inf else .ninf)
      else .num (a / b)
  | _, _ => .nan

/-- JS multiplication on the value classes reached by the engine. -/
def jsMul : JSVal → JSVal → JSVal
  | .nan, _ => .nan
  | _, .nan => .nan
  | .num a, .num b => .num (a * b)
  | .num a, .inf => if a = 0 then .nan else if 0 < a then .inf else .ninf
  | .inf, .num a => if a = 0 then .nan else if 0 < a then .inf else .ninf
  | .num a, .ninf => if a = 0 then .nan else if 0 < a then .ninf else .inf
  | .ninf, .num a => if a = 0 then .nan else if 0 < a then .ninf else .inf
  | .inf, .inf => .inf
  | .inf, .ninf => .ninf
  | .ninf, .inf => .ninf
  | .ninf, .ninf => .inf

/-- JS Math.min: NaN-propagating, infinity-absorbing. -/
def jsMin : JSVal → JSVal → JSVal
  | .nan, _ => .nan
  | _, .nan => .nan
  | .ninf, _ => .ninf
  | _, .ninf => .ninf
  | .inf, b => b
  | a, .inf => a
  | .num a, .num b => .num (min a b)

/-- JS Math.max: NaN-propagating, infinity-absorbing. -/
def jsMax : JSVal → JSVal → JSVal
  | .nan, _ => .nan
  | _, .nan => .nan
  | .inf, _ => .inf
  | _, .inf => .inf
  | .ninf, b => b
  | a, .ninf => a
  | .num a, .num b => .num (max a b)

/-- Source clamp on JS values: Math.max(a, Math.min(b, v)). -/
def jsClamp (v : JSVal) (a b : ℚ) : JSVal := jsMax (.num a) (jsMin (.num b) v)

/-- Whether a JS value is a finite number. -/
def jsFinite : JSVal → Bool
  | .num _ => true
  | _ => false

/-- The target offset stored by handleTrackMousedown under JS arithmetic:
clamp(maxScroll * ((clickY - thumbH/2) / (trackH - thumbH)), 0, maxScroll);
the divisor trackH - thumbH carries no guard in the source. -/
def trackClickTargetJS (maxScroll clickY trackH thumbH : ℚ) : JSVal :=
  jsClamp (jsMul (.num maxScroll)
    (jsDiv (.num (clickY - thumbH / 2)) (.num (trackH - thumbH)))) 0 maxScroll

/-- Presence of the five required constructor handles
(root, content, bar, track, thumb). -/
structure CtorOpts where
  root : Bool
  content : Bool
  bar : Bool
  track : Bool
  thumb : Bool
deriving DecidableEq

/-- The object produced by new LGScroll(opts).  In JS, new yields the
allocated object even when the constructor body takes the missing-handle
early return, so construction always produces an object; bodyRan records
whether the guard passed and the body (field assignments, bindEvents,
measure) actually ran. -/
structure EngineObj where
  bodyRan : Bool
deriving DecidableEq

/-- new LGScroll(opts): the guard logs and returns early when any handle is
missing, but the object exists either way. -/
def construct (o : CtorOpts) : EngineObj :=
  ⟨o.root && o.content && o.bar && o.track && o.thumb⟩

/-- initLGScrollSystem unconditionally stores the main instance:
window.LGScrollInstances = { main: mainScroll, ... } with
mainScroll = new LGScroll({...}); the entry is never absent or null. -/
def registryMain (o : CtorOpts) : Option EngineObj := some (construct o)

/-- Resources owned by one engine instance: the pending animation frame id,
the six listener registrations of bindEvents, the ResizeObserver connection,
and the fire time of a pending auto-hide setTimeout (whose id the source
never stores). -/
structure Resources where
  rafId : Option ℕ
  wheelBound : Bool
  keydownBound : Bool
  thumbMdBound : Bool
  trackMdBound : Bool
  mousemoveBound : Bool
  mouseupBound : Bool
  roConnected : Bool
  hideTimer : Option ℚ
deriving DecidableEq

/-- stopRAF(): cancels and clears the pending animation frame. -/
def stopRAF (r : Resources) : Resources := { r with rafId := none }

/-- The setTimeout branch of maybeAutoHideSoon(): when not dragging and the
delay has not yet elapsed since the last activity, schedules a hide check
at now + (autoHideMs - timeSinceActive) + 10; the timeout id is discarded. -/
def scheduleHideCheck (now lastActiveTs autoHideMs : ℚ) (dragging : Bool)
    (r : Resources) : Resources :=
  if dragging then r
  else if autoHideMs ≤ now - lastActiveTs then r
  else { r with hideTimer := some (now + (autoHideMs - (now - lastActiveTs)) + 10) }

/-- teardown(): stopRAF, remove the six listeners, disconnect the
ResizeObserver.  The hideTimer field is untouched because the source never
stores a timeout id and never calls clearTimeout. -/
def teardown (r : Resources) : Resources :=
  { stopRAF r with
      wheelBound := false, keydownBound := false, thumbMdBound := false
      trackMdBound := false, mousemoveBound := false, mouseupBound := false
      roConnected := false }

/-- Listener targets used by bindEvents. -/
inductive EvTarget where
  | root
  | window
  | thumb
  | track
deriving DecidableEq

/-- Event kinds relevant to the input-adapter claims. -/
inductive EvKind where
  | wheel
  | keydown
  | mousedown
  | mousemove
  | mouseup
  | touchstart
  | touchmove
  | touchend
deriving DecidableEq

/-- The exact listener registrations performed by bindEvents() (the
ResizeObserver on content and root is the only further subscription). -/
def bindEvents : List (EvTarget × EvKind) :=
  [(.root, .wheel), (.window, .keydown), (.thumb, .mousedown),
   (.track, .mousedown), (.window, .mousemove), (.window, .mouseup)]

/-- State of the visibility machine: last activity timestamp, dragging flag,
whether the lg-visible class is present, and the fire times of the pending
setTimeout hide checks. -/
structure HideState where
  lastActiveTs : ℚ
  dragging : Bool
  visible : Bool
  timers : List ℚ
deriving DecidableEq

/-- Timed events acting on the visibility machine: activity is the animated
setTarget path (lastActiveTs = now, add lg-visible); settle is the
maybeAutoHideSoon call when the animation loop stops; dragStart and mouseup
are the thumb-drag handlers; timerFire is a scheduled setTimeout callback
coming due. -/
inductive HideEvent where
  | activity (t : ℚ)
  | settle (t : ℚ)
  | dragStart (t : ℚ)
  | mouseup (t : ℚ)
  | timerFire (t : ℚ)
deriving DecidableEq

/-- The wall-clock time at which an event happens. -/
def eventTime : HideEvent → ℚ
  | .activity t => t
  | .settle t => t
  | .dragStart t => t
  | .mouseup t => t
  | .timerFire t => t

/-- maybeAutoHideSoon(): no-op while dragging; if the delay has already
elapsed since the last activity, remove lg-visible now, else schedule a
check at now + (delay - timeSinceActive) + 10. -/
def maybeAutoHideSoon (now delay : ℚ) (s : HideState) : HideState :=
  if s.dragging then s
  else if delay ≤ now - s.lastActiveTs then { s with visible := false }
  else { s with timers := (now + (delay - (now - s.lastActiveTs)) + 10) :: s.timers }

/-- The setTimeout callback: if it was scheduled for this instant, consume
it and remove lg-visible only when not dragging and the delay has elapsed
since the (possibly newer) last activity. -/
def timerFire (now delay : ℚ) (s : HideState) : HideState :=
  if s.timers.contains now then
    let s1 := { s with timers := s.timers.erase now }
    if !s1.dragging && delay ≤ now - s1.lastActiveTs then { s1 with visible := false }
    else s1
  else s

/-- One step of the visibility machine. -/
def hideStep (delay : ℚ) (s : HideState) (e : HideEvent) : HideState :=
  match e with
  | .activity t => { s with lastActiveTs := t, visible := true }
  | .settle t => maybeAutoHideSoon t delay s
  | .dragStart _ => { s with dragging := true, visible := true }
  | .mouseup t =>
      if s.dragging then maybeAutoHideSoon t delay { s with dragging := false } else s
  | .timerFire t => timerFire t delay s

/-- The spec scenario: activity at t=0 and t=500 (each followed by the
animation settling and arming a hide check), then the stale timer firing
at t=1610. -/
def demoHideTrace : HideState :=
  [HideEvent.activity 0, HideEvent.settle 0, HideEvent.activity 500,
    HideEvent.settle 500, HideEvent.timerFire 1610].foldl
    (hideStep 1600) { lastActiveTs := 0, dragging := false, visible := false, timers := [] }

lemma demoHideTrace_eval :
    demoHideTrace =
      { lastActiveTs := 500, dragging := false, visible := true, timers := [2110] } := by
  norm_num [demoHideTrace, hideStep, maybeAutoHideSoon, timerFire,
    List.contains_cons, List.erase_cons]

lemma mahs_dragging (now delay : ℚ) (s : HideState) :
    (maybeAutoHideSoon now delay s).dragging = s.dragging := by
  unfold maybeAutoHideSoon
  split
  · rfl
  · split <;> rfl

lemma mahs_drag_noop {now delay : ℚ} {s : HideState} (hd : s.dragging = true) :
    maybeAutoHideSoon now delay s = s := by
  unfold maybeAutoHideSoon
  rw [if_pos hd]

lemma mahs_hide {now delay : ℚ} {s : HideState} (hv : s.visible = true)
    (h : (maybeAutoHideSoon now delay s).visible = false) :
    delay ≤ now - s.lastActiveTs := by
  by_cases h1 : s.dragging = true
  · rw [mahs_drag_noop h1, hv] at h
    exact absurd h (by simp)
  · by_cases h2 : delay ≤ now - s.lastActiveTs
    · exact h2
    · unfold maybeAutoHideSoon at h
      rw [if_neg h1, if_neg h2] at h
      exact absurd h (by simp [hv])

lemma timerFire_drag_keeps {now delay : ℚ} {s : HideState} (hd : s.dragging = true) :
    (timerFire now delay s).visible = s.visible := by
  unfold timerFire
  split
  · dsimp only
    rw [if_neg (by simp [hd])]
  · rfl

lemma timerFire_hide {now delay : ℚ} {s : HideState} (hv : s.visible = true)
    (h : (timerFire now delay s).visible = false) :
    delay ≤ now - s.lastActiveTs := by
  unfold timerFire at h
  by_cases hc : s.timers.contains now = true
  · rw [if_pos hc] at h
    dsimp only at h
    split at h
    · next hg =>
        simp only [Bool.and_eq_true, decide_eq_true_eq] at hg
        exact hg.2
    · exact absurd h (by simp [hv])
  · rw [if_neg hc] at h
    exact absurd h (by simp [hv])

/-- C8: auto-hide is a debounce over the last-activity timestamp: no step
hides the indicator while a drag stays in progress, any step that hides it
happens at least the configured delay after the most recent activity, and
in the spec scenario (activity at 0 and 500, delay 1600) the indicator is
still visible after the stale 1610 timer fired, only the 2110 check is
pending, and that check hides it at 2110. -/
theorem autoHide_debounce (d : ℚ) (s : HideState) (e : HideEvent) :
    (s.dragging = true → (hideStep d s e).dragging = true →
      s.visible = true → (hideStep d s e).visible = true) ∧
    (s.visible = true → (hideStep d s e).visible = false →
      d ≤ eventTime e - s.lastActiveTs) ∧
    (demoHideTrace.visible = true ∧ demoHideTrace.lastActiveTs = 500 ∧
      demoHideTrace.timers = [2110] ∧
      (hideStep 1600 demoHideTrace (.timerFire 2110)).visible = false) := by
  refine ⟨?_, ?_, by rw [demoHideTrace_eval], by rw [demoHideTrace_eval],
    by rw [demoHideTrace_eval],
    by rw [demoHideTrace_eval]; norm_num [hideStep, timerFire, List.contains_cons]⟩
  · intro hd hd' hv
    cases e with
    | activity t => rfl
    | settle t =>
        show (maybeAutoHideSoon t d s).visible = true
        rw [mahs_drag_noop hd]
        exact hv
    | dragStart t => rfl
    | mouseup t =>
        have hd2 : (if s.dragging = true then
            maybeAutoHideSoon t d { s with dragging := false } else s).dragging = true := hd'
        rw [if_pos hd, mahs_dragging] at hd2
        simp at hd2
    | timerFire t =>
        show (timerFire t d s).visible = true
        rw [timerFire_drag_keeps hd]
        exact hv
  · intro hv hv'
    cases e with
    | activity t =>
        exfalso
        have h2 : ({ s with lastActiveTs := t, visible := true } : HideState).visible
            = false := hv'
        simp at h2
    | settle t => exact mahs_hide hv hv'
    | dragStart t =>
        exfalso
        have h2 : ({ s with dragging := true, visible := true } : HideState).visible
            = false := hv'
        simp at h2
    | mouseup t =>
        by_cases hd : s.dragging = true
        · have h3 : (if s.dragging = true then
              maybeAutoHideSoon t d { s with dragging := false } else s).visible
                = false := hv'
          rw [if_pos hd] at h3
          exact @mahs_hide t d { s with dragging := false }
            (show ({ s with dragging := false } : HideState).visible = true from hv) h3
        · exfalso
          have h3 : (if s.dragging = true then
              maybeAutoHideSoon t d { s with dragging := false } else s).visible
                = false := hv'
          rw [if_neg hd, hv] at h3
          simp at h3
    | timerFire t => exact timerFire_hide hv hv'

/-- C8 witness at concrete instances: a settle step during a drag keeps the
indicator visible, and a hiding settle step at t=1700 with last activity at
t=0 satisfies the 1600ms debounce bound. -/
theorem autoHide_debounce_witness :
    (hideStep 1600 { lastActiveTs := 0, dragging := true, visible := true, timers := [] }
      (.settle 100)).visible = true ∧
    (1600 : ℚ) ≤ eventTime (HideEvent.settle 1700) -
      ({ lastActiveTs := 0, dragging := false, visible := true, timers := [] } :
        HideState).lastActiveTs :=
  ⟨(autoHide_debounce 1600
      { lastActiveTs := 0, dragging := true, visible := true, timers := [] }
      (.settle 100)).1 rfl rfl rfl,
   (autoHide_debounce 1600
      { lastActiveTs := 0, dragging := false, visible := true, timers := [] }
      (.settle 1700)).2.1 rfl (by norm_num [hideStep, maybeAutoHideSoon])⟩

/-- C5 (amended): the divisions in measure (content size) and in the
thumb-drag handler (track minus thumb) are guarded by max(1, .) and their
divisors are at least 1 for every input, and the unguarded track-click
division yields a finite stored target whenever trackH differs from thumbH. -/
theorem division_guards (contentH trackH thumbH maxScroll clickY : ℚ)
    (h : trackH ≠ thumbH) :
    1 ≤ max 1 contentH ∧ 1 ≤ max 1 (trackH - thumbH) ∧
    jsFinite (trackClickTargetJS maxScroll clickY trackH thumbH) = true := by
  refine ⟨le_max_left 1 _, le_max_left 1 _, ?_⟩
  simp [trackClickTargetJS, jsClamp, jsDiv, jsMul, jsMin, jsMax, jsFinite,
    sub_eq_zero, h]

/-- C5 witness at a concrete instance. -/
theorem division_guards_witness :
    (1:ℚ) ≤ max 1 200 ∧ (1:ℚ) ≤ max 1 ((300:ℚ) - 75) ∧
    jsFinite (trackClickTargetJS 900 200 300 75) = true :=
  division_guards 200 300 75 900 200 (by norm_num)

/-- C5 counterexample: the state measured from viewport=100, content=200,
track=30 with the default minThumb=32 is scrollable (maxScroll = 100) yet
has thumbH = trackH = 30, and a track click at clickY = 15 = thumbH/2 then
divides 0 by 0: the stored target is NaN, a non-finite position, refuting
the claim that every such division is guarded. -/
theorem trackClick_nan_counterexample :
    (measure 100 200 30 initState).maxScroll = 100 ∧
    (measure 100 200 30 initState).trackH = 30 ∧
    (measure 100 200 30 initState).thumbH = 30 ∧
    trackClickTargetJS 100 15 30 30 = JSVal.nan ∧
    jsFinite (trackClickTargetJS 100 15 30 30) = false := by
  norm_num [measure, setTarget, applyScrollImmediate, clamp, jsRound, initState,
    trackClickTargetJS, jsClamp, jsDiv, jsMul, jsMin, jsMax, jsFinite]

/-- Whether a JS value is a finite number within [lo, hi]; NaN and the
infinities are never in range. -/
def jsInRange (v : JSVal) (lo hi : ℚ) : Bool :=
  match v with
  | .num q => decide (lo ≤ q ∧ q ≤ hi)
  | _ => false

lemma trackClickTargetJS_num (maxScroll clickY trackH thumbH : ℚ)
    (h : trackH ≠ thumbH) :
    trackClickTargetJS maxScroll clickY trackH thumbH =
      JSVal.num
        (clamp (maxScroll * ((clickY - thumbH / 2) / (trackH - thumbH)))
          0 maxScroll) := by
  have hz : trackH - thumbH ≠ 0 := sub_ne_zero.mpr h
  unfold trackClickTargetJS
  rw [show jsDiv (JSVal.num (clickY - thumbH / 2)) (JSVal.num (trackH - thumbH))
      = JSVal.num ((clickY - thumbH / 2) / (trackH - thumbH)) from by
    unfold jsDiv
    exact if_neg hz]
  rfl

/-- C3 (amended): applyScrollImmediate, setTarget, measure, forceMeasure,
animate, scrollTo, scrollToEnd and the wheel, keyboard, thumb-mousedown,
mousemove and mouseup handlers preserve 0 ≤ scrollY ≤ maxScroll and
0 ≤ targetY ≤ maxScroll for every finite input; the track-click handler
preserves it when thumbH differs from trackH, in which case the JS-stored
target is itself a finite value in [0, maxScroll].  The degenerate
thumbH = trackH track click, whose JS result is NaN, is the counterexample
to the unrestricted claim. -/
theorem operations_preserve_offsets (s : State)
    (v c t y y2 deltaY clientY clickY : ℚ)
    (imm ctrl applicable onThumb : Bool) (k : Key) (hInv : Inv s) :
    Inv (applyScrollImmediate y s) ∧ Inv (setTarget y2 imm s) ∧
    Inv (measure v c t s) ∧ Inv (forceMeasure v c t s) ∧
    Inv (animate s) ∧ Inv (scrollTo y s) ∧ Inv (scrollToEnd v c t s) ∧
    Inv (handleWheel deltaY ctrl s) ∧ Inv (handleKeyDown applicable k s) ∧
    Inv (handleThumbMousedown clientY s) ∧ Inv (handleWindowMousemove clientY s) ∧
    Inv (handleWindowMouseup s) ∧
    (s.thumbH ≠ s.trackH → Inv (handleTrackMousedown clickY onThumb s)) ∧
    (s.thumbH ≠ s.trackH → ∃ q,
      trackClickTargetJS s.maxScroll clickY s.trackH s.thumbH = JSVal.num q ∧
      0 ≤ q ∧ q ≤ s.maxScroll) :=
  ⟨inv_applyScrollImmediate y hInv, inv_setTarget y2 imm hInv, inv_measure v c t s,
   inv_measure v c t s, inv_animate hInv, inv_scrollTo y hInv, inv_scrollToEnd v c t s,
   inv_handleWheel deltaY ctrl hInv, inv_handleKeyDown applicable k hInv,
   inv_handleThumbMousedown clientY hInv, inv_handleWindowMousemove clientY hInv,
   inv_handleWindowMouseup hInv,
   fun _ => inv_handleTrackMousedown clickY onThumb hInv,
   fun hne =>
     ⟨clamp (s.maxScroll * ((clickY - s.thumbH / 2) / (s.trackH - s.thumbH)))
        0 s.maxScroll,
      trackClickTargetJS_num s.maxScroll clickY s.trackH s.thumbH (Ne.symm hne),
      clamp_nonneg _ _, clamp_le _ _ hInv.1⟩⟩

/-- C3 witness at a concrete instance: the demo geometry has
thumbH = 75 ≠ trackH = 300, so every discharged conjunct applies. -/
theorem operations_preserve_offsets_witness :
    Inv (animate demoState) ∧ Inv (scrollTo 5000 demoState) ∧
    Inv (handleTrackMousedown 150 false demoState) ∧
    (∃ q, trackClickTargetJS demoState.maxScroll 150 demoState.trackH
        demoState.thumbH = JSVal.num q ∧ 0 ≤ q ∧ q ≤ demoState.maxScroll) :=
  ⟨(operations_preserve_offsets demoState 300 1200 300 5000 10 3 40 150
      false false true false Key.home inv_demoState).2.2.2.2.1,
   (operations_preserve_offsets demoState 300 1200 300 5000 10 3 40 150
      false false true false Key.home inv_demoState).2.2.2.2.2.1,
   (operations_preserve_offsets demoState 300 1200 300 5000 10 3 40 150
      false false true false Key.home inv_demoState).2.2.2.2.2.2.2.2.2.2.2.2.1
     (by norm_num [demoState]),
   (operations_preserve_offsets demoState 300 1200 300 5000 10 3 40 150
      false false true false Key.home inv_demoState).2.2.2.2.2.2.2.2.2.2.2.2.2
     (by norm_num [demoState])⟩

/-- C3 counterexample: the state measured from viewport=100, content=200,
track=30 (default minThumb=32) satisfies the invariant and is scrollable
(maxScroll = 100), yet thumbH = trackH = 30, and the track-click handler at
the finite input clickY = 15 stores, under JS arithmetic, the target NaN —
a value outside [0, maxScroll] — so this public operation does not preserve
the target-offset invariant as the unrestricted claim states. -/
theorem trackClick_invariant_broken_counterexample :
    Inv (measure 100 200 30 initState) ∧
    (measure 100 200 30 initState).maxScroll = 100 ∧
    (measure 100 200 30 initState).thumbH = 30 ∧
    (measure 100 200 30 initState).trackH = 30 ∧
    trackClickTargetJS 100 15 30 30 = JSVal.nan ∧
    jsInRange (trackClickTargetJS 100 15 30 30) 0 100 = false := by
  refine ⟨inv_measure 100 200 30 initState, ?_, ?_, ?_, ?_, ?_⟩ <;>
    norm_num [measure, setTarget, applyScrollImmediate, clamp, jsRound, initState,
      trackClickTargetJS, jsClamp, jsDiv, jsMul, jsMin, jsMax, jsInRange]

/-- C6 (amended): when any required handle is missing the constructor body
does not run (no fields assigned, no listeners bound), but JS new still
yields the object and initLGScrollSystem still stores it, so the registry
entry is a partially-initialized object rather than absent/null. -/
theorem construct_skips_body (o : CtorOpts)
    (h : o.root = false ∨ o.content = false ∨ o.bar = false ∨
      o.track = false ∨ o.thumb = false) :
    (construct o).bodyRan = false ∧ registryMain o = some (construct o) := by
  refine ⟨?_, rfl⟩
  unfold construct
  rcases h with h | h | h | h | h <;> simp [h]

/-- C6 witness at a concrete instance (content handle missing). -/
theorem construct_skips_body_witness :
    (construct ⟨true, false, true, true, true⟩).bodyRan = false ∧
    registryMain ⟨true, false, true, true, true⟩ =
      some (construct ⟨true, false, true, true, true⟩) :=
  construct_skips_body ⟨true, false, true, true, true⟩ (Or.inr (Or.inl rfl))

/-- C6 counterexample: with the root handle missing, the registry entry is
not absent/null; it is an object whose constructor body never ran. -/
theorem construct_missing_root_counterexample :
    registryMain ⟨false, true, true, true, true⟩ ≠ none ∧
    (construct ⟨false, true, true, true, true⟩).bodyRan = false := by
  decide

/-- C7 (amended): teardown cancels the pending animation frame, detaches all
six listeners and disconnects the ResizeObserver, but leaves any pending
auto-hide timeout exactly as it was. -/
theorem teardown_releases (r : Resources) :
    (teardown r).rafId = none ∧ (teardown r).wheelBound = false ∧
    (teardown r).keydownBound = false ∧ (teardown r).thumbMdBound = false ∧
    (teardown r).trackMdBound = false ∧ (teardown r).mousemoveBound = false ∧
    (teardown r).mouseupBound = false ∧ (teardown r).roConnected = false ∧
    (teardown r).hideTimer = r.hideTimer :=
  ⟨rfl, rfl, rfl, rfl, rfl, rfl, rfl, rfl, rfl⟩

/-- A live instance: pending frame, all listeners bound, observer connected,
no timer yet. -/
def demoResources : Resources :=
  { rafId := some 1, wheelBound := true, keydownBound := true
    thumbMdBound := true, trackMdBound := true, mousemoveBound := true
    mouseupBound := true, roConnected := true, hideTimer := none }

/-- C7 witness at a concrete instance. -/
theorem teardown_releases_witness :
    (teardown demoResources).rafId = none ∧
    (teardown demoResources).hideTimer = demoResources.hideTimer :=
  ⟨(teardown_releases demoResources).1,
   (teardown_releases demoResources).2.2.2.2.2.2.2.2⟩

/-- C7 counterexample: after maybeAutoHideSoon arms a hide check (at t=0
with last activity at t=0 and a 1600ms delay, firing at 1610), teardown
leaves that timeout pending — the source stores no timeout id and never
calls clearTimeout — refuting the claim that teardown cancels the pending
auto-hide timer. -/
theorem teardown_timer_counterexample :
    (scheduleHideCheck 0 0 1600 false demoResources).hideTimer = some 1610 ∧
    (teardown (scheduleHideCheck 0 0 1600 false demoResources)).hideTimer
      = some 1610 ∧
    (teardown (scheduleHideCheck 0 0 1600 false demoResources)).hideTimer
      ≠ none := by
  have h1 : (scheduleHideCheck 0 0 1600 false demoResources).hideTimer
      = some 1610 := by
    norm_num [scheduleHideCheck, demoResources]
  have h2 : (teardown (scheduleHideCheck 0 0 1600 false demoResources)).hideTimer
      = some 1610 := h1
  exact ⟨h1, h2, by rw [h2]; exact Option.some_ne_none 1610⟩

/-- C9 (amended): bindEvents registers exactly wheel on the root, keydown,
mousemove and mouseup on the window, and mousedown on the thumb and the
track (plus the ResizeObserver); no touch listener is registered, so this
engine has no touch-drag input adapter. -/
theorem bindEvents_no_touch_adapter :
    bindEvents = [(.root, .wheel), (.window, .keydown), (.thumb, .mousedown),
      (.track, .mousedown), (.window, .mousemove), (.window, .mouseup)] ∧
    ((EvTarget.root, EvKind.touchstart) ∉ bindEvents) ∧
    ((EvTarget.window, EvKind.touchstart) ∉ bindEvents) ∧
    ((EvTarget.thumb, EvKind.touchstart) ∉ bindEvents) ∧
    ((EvTarget.track, EvKind.touchstart) ∉ bindEvents) ∧
    ((EvTarget.root, EvKind.touchmove) ∉ bindEvents) ∧
    ((EvTarget.window, EvKind.touchmove) ∉ bindEvents) ∧
    ((EvTarget.thumb, EvKind.touchmove) ∉ bindEvents) ∧
    ((EvTarget.track, EvKind.touchmove) ∉ bindEvents) := by
  refine ⟨rfl, ?_, ?_, ?_, ?_, ?_, ?_, ?_, ?_⟩ <;> decide

/-- C9 counterexample: no registration of bindEvents is for a touch event,
so there is no touch-start handler recording drag anchors. -/
theorem no_touch_listener_counterexample :
    (bindEvents.all fun p =>
      !(p.2 == EvKind.touchstart || p.2 == EvKind.touchmove ||
        p.2 == EvKind.touchend)) = true := by
  decide

end LGScroll
